import Mathlib

/-!
Shallow embedding of `chat_app.py` (interactive system-metrics chat monitor).

Conventions of the embedding:
* Python floats are modelled as rationals (`ℚ`); `f"{x:.2f}"` formatting is
  modelled with round-half-to-even on the rational value.
* SQLite scalar values are modelled by `Scalar` (NULL / INTEGER / REAL / TEXT);
  SQLite's dynamic typing means any column may hold any of these.
* Python exceptions that escape a function are modelled with `Except PyExc`
  or an `Option PyExc` field; exceptions the source catches are handled
  inside the corresponding definition, exactly where the source catches them.
* String primitives (`strip`, `lower`, `replace`, `split`, `endswith`,
  `int()`, `float()`) are modelled over `List Char`.  ASCII inputs behave as
  in Python; underscore digit separators and `inf`/`nan` float literals are
  not modelled.
* The Qt GUI is out of scope: the chat history is a list of messages, the
  input box is a string field, and `psutil` process sampling is an input
  list of `(name, cpu_percent)` samples.
-/

attribute [local semireducible] Rat.mul Rat.add Rat.sub Rat.inv Rat.ofScientific

/-- Python exception classes that can escape the modelled code. -/
inductive PyExc where
  | valueError
  | typeError
  | attributeError
  | nameError
deriving DecidableEq, Repr

/-- A SQLite scalar value (NULL, INTEGER, REAL or TEXT); REAL is modelled as `ℚ`. -/
inductive Scalar where
  | null
  | int (i : ℤ)
  | real (q : ℚ)
  | text (s : String)
deriving DecidableEq, Repr

/-- Whitespace characters removed by Python's `str.strip()` (ASCII subset). -/
def isPySpace (c : Char) : Bool :=
  c = ' ' ∨ c = '\t' ∨ c = '\n' ∨ c = '\r' ∨ c = '\x0b' ∨ c = '\x0c'

/-- Python `str.strip()` (ASCII whitespace). -/
def pyStrip (s : String) : String :=
  ⟨((s.data.dropWhile isPySpace).reverse.dropWhile isPySpace).reverse⟩

/-- Python `str.lower()` (ASCII model). -/
def pyLower (s : String) : String :=
  ⟨s.data.map Char.toLower⟩

/-- Python `str.replace(c, repl)` for a single-character pattern. -/
def pyReplaceChar (c : Char) (repl : List Char) (s : String) : String :=
  ⟨s.data.foldr (fun a acc => if a = c then repl ++ acc else a :: acc) []⟩

/-- Python `s.endswith('%')`. -/
def endsPercent (s : String) : Bool :=
  s.data.getLast? = some '%'

/-- Decimal value of a digit list (most significant first). -/
def digitsToNat (l : List Char) : ℕ :=
  l.foldl (fun a c => 10 * a + (c.toNat - 48)) 0

/-- Python `int(s)`: strip whitespace, optional sign, nonempty digit run. -/
def pyParseIntStr (s : String) : Option ℤ :=
  let l := (pyStrip s).data
  let p : ℤ × List Char :=
    match l with
    | '+' :: r => (1, r)
    | '-' :: r => (-1, r)
    | r => (1, r)
  if p.2 ≠ [] ∧ p.2.all Char.isDigit then some (p.1 * digitsToNat p.2) else none

/-- Exponent digits of a float literal: optional sign then a nonempty digit run. -/
def expDigits (l : List Char) : Option ℤ :=
  let p : ℤ × List Char :=
    match l with
    | '+' :: r => (1, r)
    | '-' :: r => (-1, r)
    | r => (1, r)
  if p.2 ≠ [] ∧ p.2.all Char.isDigit then some (p.1 * digitsToNat p.2) else none

/-- Optional exponent part of a float literal (`e`/`E` then signed digits); the
whole remainder must be consumed. -/
def parseExpPart : List Char → Option ℤ
  | [] => some 0
  | 'e' :: r => expDigits r
  | 'E' :: r => expDigits r
  | _ => none

/-- Scale a rational by a signed power of ten. -/
def pow10 (e : ℤ) (q : ℚ) : ℚ :=
  if 0 ≤ e then q * (10 : ℚ) ^ e.toNat else q / (10 : ℚ) ^ (-e).toNat

/-- Unsigned part of Python `float(s)`: `digits [. digits] [exp]`, `. digits [exp]`. -/
def parseUnsigned (l : List Char) : Option ℚ :=
  let ip := l.takeWhile Char.isDigit
  let r1 := l.drop ip.length
  match r1 with
  | '.' :: r2 =>
    let fp := r2.takeWhile Char.isDigit
    let r3 := r2.drop fp.length
    if ip = [] ∧ fp = [] then none
    else
      match parseExpPart r3 with
      | some e => some (pow10 e ((digitsToNat ip : ℚ) + (digitsToNat fp : ℚ) / (10 : ℚ) ^ fp.length))
      | none => none
  | _ =>
    if ip = [] then none
    else
      match parseExpPart r1 with
      | some e => some (pow10 e (digitsToNat ip : ℚ))
      | none => none

/-- Python `float(s)` on finite decimal literals. -/
def pyParseFloat (s : String) : Option ℚ :=
  match (pyStrip s).data with
  | '+' :: r => parseUnsigned r
  | '-' :: r => (parseUnsigned r).map Neg.neg
  | r => parseUnsigned r

/-- Floor of a rational, computed by floor division of numerator by denominator. -/
def ratFloor (q : ℚ) : ℤ :=
  Int.fdiv q.num q.den

/-- Round half to even at integer precision (Python's float→string rounding model). -/
def rhe (q : ℚ) : ℤ :=
  let f := ratFloor q
  let r := q - (f : ℚ)
  if r < 1 / 2 then f
  else if 1 / 2 < r then f + 1
  else if f % 2 = 0 then f else f + 1

/-- Zero-pad a natural number to two digits. -/
def pad2 (n : ℕ) : String :=
  if n < 10 then "0" ++ Nat.repr n else Nat.repr n

/-- Zero-pad a natural number to four digits (strftime `%Y`). -/
def pad4 (n : ℕ) : String :=
  (if n < 10 then "000" else if n < 100 then "00" else if n < 1000 then "0" else "") ++ Nat.repr n

/-- Python `f"{q:.2f}"` on the rational model of a float. -/
def fmt2 (q : ℚ) : String :=
  let n := rhe (q * 100)
  let m := n.natAbs
  (if n < 0 then "-" else "") ++ Nat.repr (m / 100) ++ "." ++ pad2 (m % 100)

/-- Python `int(q)` truncation toward zero of a float. -/
def pyTrunc (q : ℚ) : ℤ :=
  if 0 ≤ q then ratFloor q else -(ratFloor (-q))

/-- The metric catalog of `ChatApp.__init__` (`self.metric_names`), order preserved. -/
def metric_names : List String :=
  ["cpu_percent", "cpu_load_percent", "cpu_freq",
   "ram_percent", "ram_load_percent", "ram_used", "ram_load_used",
   "ram_total", "ram_free", "ram_load_free", "disco_percent",
   "disk_used", "disk_total", "disk_free", "swap_percent",
   "swap_usado", "swap_total", "red_bytes_sent", "red_bytes_recv",
   "cpu_temp_celsius", "battery_percent", "cpu_power_package",
   "cpu_power_cores", "cpu_clocks", "hdd_used",
   "top_10_cpu"]

/-- The fixed column list of `get_metrics_data` (26 columns). -/
def columns : List String :=
  ["timestamp", "cpu_percent", "cpu_load_percent", "cpu_freq",
   "ram_percent", "ram_load_percent", "ram_used", "ram_load_used",
   "ram_total", "ram_free", "ram_load_free", "disco_percent",
   "disk_used", "disk_total", "disk_free", "swap_percent",
   "swap_usado", "swap_total", "red_bytes_sent", "red_bytes_recv",
   "cpu_temp_celsius", "battery_percent", "cpu_power_package",
   "cpu_power_cores", "cpu_clocks", "hdd_used"]

/-- Keys coerced with `int(...)` rather than `float(...)` in `get_metrics_data`. -/
def byteKeys : List String :=
  ["red_bytes_sent", "red_bytes_recv"]

/-- Python `str.capitalize()` over a character list. -/
def capList : List Char → List Char
  | [] => []
  | c :: r => c.toUpper :: r.map Char.toLower

/-- Python `str.split(sep)` for a one-character separator. -/
def splitOnChar (c : Char) : List Char → List (List Char)
  | [] => [[]]
  | a :: r =>
    let rest := splitOnChar c r
    if a = c then [] :: rest
    else
      match rest with
      | [] => [[a]]
      | h :: t => (a :: h) :: t

/-- Python `" ".join(parts)`. -/
def joinSpace : List (List Char) → List Char
  | [] => []
  | [p] => p
  | p :: r => p ++ ' ' :: joinSpace r

/-- The `self.formatted_metric_names` mapping: capitalize each `_`-separated part,
joined by spaces, with the `top_10_cpu` entry overridden afterwards. -/
def formatted_metric_names (n : String) : String :=
  if n = "top_10_cpu" then "Top 10 Apps High CPU"
  else ⟨joinSpace ((splitOnChar '_' n.data).map capList)⟩

/-- The SQLite database state: whether the `metricas` table exists, and its rows.
Each row is the tuple of column values in schema order. -/
structure Db where
  tableExists : Bool
  rows : List (List Scalar)
deriving DecidableEq, Repr

/-- SQLite rank used by `ORDER BY`: NULL < numeric < TEXT. -/
def sqliteRank : Scalar → ℕ
  | .null => 0
  | .int _ => 1
  | .real _ => 1
  | .text _ => 2

/-- Numeric value of a scalar for cross-type numeric comparison. -/
def sqliteNum : Scalar → ℚ
  | .int i => (i : ℚ)
  | .real q => q
  | _ => 0

/-- SQLite `ORDER BY` comparison (BINARY collation modelled by `String` order). -/
def sqliteLe (a b : Scalar) : Bool :=
  if sqliteRank a < sqliteRank b then true
  else if sqliteRank b < sqliteRank a then false
  else
    match a, b with
    | .text s, .text t => decide (s ≤ t)
    | a', b' => decide (sqliteNum a' ≤ sqliteNum b')

/-- Strictly-greater comparison derived from `sqliteLe`. -/
def sqliteGt (a b : Scalar) : Bool :=
  sqliteLe b a && !(sqliteLe a b)

/-- `SELECT * FROM metricas ORDER BY timestamp DESC LIMIT 1`: the row whose first
column (the timestamp) is maximal; `none` when the table is empty. -/
def latestRow (db : Db) : Option (List Scalar) :=
  match db.rows with
  | [] => none
  | r :: rs =>
    some (rs.foldl (fun best x =>
      if sqliteGt (x.headD Scalar.null) (best.headD Scalar.null) then x else best) r)

/-- `ChatApp.create_table`: `CREATE TABLE IF NOT EXISTS metricas (...)`. -/
def create_table (db : Db) : Db :=
  { db with tableExists := true }

/-- `ChatApp.insert_sample_data`: inserts the sample row when the table has zero rows. -/
def insert_sample_data (db : Db) (sample : List Scalar) : Db :=
  if db.rows.length = 0 then { db with rows := [sample] } else db

/-- The database side effect of `ChatApp.__init__` after a successful connection:
`create_table` followed by `insert_sample_data`.  The sample row produced by
`generate_random_data` is a parameter (it is random in the source). -/
def startup_db (db : Db) (sample : List Scalar) : Db :=
  insert_sample_data (create_table db) sample

/-- A concrete shape of `generate_random_data` output: an ISO timestamp plus 25
numeric values. -/
def sample_row : List Scalar :=
  Scalar.text "2025-01-01T00:00:00" :: List.replicate 25 (Scalar.real 1)

/-- Lines 260-263 of `get_metrics_data`: if a value is a string ending in `'%'`,
every `'%'` character is removed (`str.replace('%', '')`). -/
def stripPercent : Scalar → Scalar
  | .text s => if endsPercent s = true then .text (pyReplaceChar '%' [] s) else .text s
  | v => v

/-- `int(x)` coercion applied to a scalar, `none` when Python would raise. -/
def pyIntCoerce : Scalar → Option ℤ
  | .int i => some i
  | .real q => some (pyTrunc q)
  | .text s => pyParseIntStr s
  | .null => none

/-- `float(x)` coercion applied to a scalar, `none` when Python would raise. -/
def pyFloatCoerce : Scalar → Option ℚ
  | .int i => some (i : ℚ)
  | .real q => some q
  | .text s => pyParseFloat s
  | .null => none

/-- Lines 265-274 of `get_metrics_data`: for keys in `metric_names` with a
non-NULL value, coerce to `int` (network byte counters) or `float`; a failed
coercion is silently swallowed (`except ... pass`) and the value kept as-is. -/
def coerceStep (key : String) (v : Scalar) : Scalar :=
  if key ∈ metric_names then
    match v with
    | .null => .null
    | v' =>
      if key ∈ byteKeys then
        match pyIntCoerce v' with
        | some i => .int i
        | none => v'
      else
        match pyFloatCoerce v' with
        | some q => .real q
        | none => v'
  else v

/-- Association-list lookup mirroring Python `dict` access on the zipped row. -/
def lookupA (k : String) : List (String × Scalar) → Option Scalar
  | [] => none
  | (k', v) :: r => if k' = k then some v else lookupA k r

/-- Association-list update mirroring Python `dict` item assignment. -/
def updateA (k : String) (v : Scalar) (m : List (String × Scalar)) : List (String × Scalar) :=
  m.map (fun p => if p.1 = k then (k, v) else p)

/-- One `f"{value:.2f}{suffix}"` formatting assignment.  Byte-counter fields are
divided by `1024**2` first (a `TypeError` on strings); formatting a string with
`:.2f` raises `ValueError`.  Neither exception is caught in the source. -/
def applyFmt (v : Scalar) (suffix : String) (isByte : Bool) : Except PyExc String :=
  match v with
  | .null => .error .typeError
  | .int i => .ok (fmt2 (if isByte then (i : ℚ) / 1048576 else (i : ℚ)) ++ suffix)
  | .real q => .ok (fmt2 (if isByte then q / 1048576 else q) ++ suffix)
  | .text _ => .error (if isByte then .typeError else .valueError)

/-- The fixed sequence of formatting assignments of `get_metrics_data`
(lines 277-326), in source order: key, suffix, byte-counter flag. -/
def fmtSpecs : List (String × String × Bool) :=
  [("cpu_percent", "%", false), ("cpu_load_percent", "%", false),
   ("cpu_freq", " MHz", false), ("ram_percent", "%", false),
   ("ram_load_percent", "%", false), ("ram_used", " GB", false),
   ("ram_load_used", " GB", false), ("ram_total", " GB", false),
   ("ram_free", " GB", false), ("ram_load_free", " GB", false),
   ("disco_percent", "%", false), ("disk_used", " GB", false),
   ("disk_total", " GB", false), ("disk_free", " GB", false),
   ("swap_percent", "%", false), ("swap_usado", " GB", false),
   ("swap_total", " GB", false), ("red_bytes_sent", " MB", true),
   ("red_bytes_recv", " MB", true), ("cpu_temp_celsius", " °C", false),
   ("battery_percent", "%", false), ("cpu_power_package", " W", false),
   ("cpu_power_cores", " W", false), ("hdd_used", " %", false),
   ("cpu_clocks", " MHz", false)]

/-- One `if key in metrics and metrics[key] is not None:` formatting step. -/
def fmtField (m : List (String × Scalar)) (spec : String × String × Bool) :
    Except PyExc (List (String × Scalar)) :=
  match lookupA spec.1 m with
  | none => .ok m
  | some .null => .ok m
  | some v =>
    match applyFmt v spec.2.1 spec.2.2 with
    | .ok s => .ok (updateA spec.1 (.text s) m)
    | .error e => .error e

/-- `ChatApp.get_metrics_data`: fetch the latest row, zip it with the fixed
column list, run the percent-strip/coercion loop, then the formatting
assignments.  Only `sqlite3.Error` is caught in the source, so a formatting
exception escapes as `.error`. -/
def get_metrics_data (conn : Bool) (db : Db) : Except PyExc (List (String × Scalar)) :=
  if conn = false then
    .ok [("error", .text "No se pudo conectar a la base de datos.")]
  else if db.tableExists = false then
    .ok [("error", .text "Error al leer de la base de datos: no such table: metricas")]
  else
    match latestRow db with
    | none => .ok [("error", .text "No hay datos en la tabla de métricas.")]
    | some row =>
      if row.isEmpty then .ok [("error", .text "No hay datos en la tabla de métricas.")]
      else
        let m0 := columns.zip row
        let m1 := m0.map (fun p => (p.1, coerceStep p.1 (stripPercent p.2)))
        List.foldlM fmtField m1 fmtSpecs

/-- One live process sample collected by the `psutil.process_iter` loop of
`get_top_cpu_processes`: the entries of `process_data` (each has status `'OK'`;
processes that raised during sampling were skipped and never appended). -/
structure ProcSample where
  name : String
  cpu : ℚ
deriving DecidableEq, Repr

/-- The descending-CPU ordering used by `sorted(..., key=..., reverse=True)`. -/
def cpuGe (a b : ProcSample) : Prop :=
  b.cpu ≤ a.cpu

instance : DecidableRel cpuGe :=
  fun a b => inferInstanceAs (Decidable (b.cpu ≤ a.cpu))

instance : IsTotal ProcSample cpuGe :=
  ⟨fun a b => le_total b.cpu a.cpu⟩

instance : IsTrans ProcSample cpuGe :=
  ⟨fun _ _ _ h1 h2 => le_trans h2 h1⟩

/-- The index-refined stable descending order: CPU percentage descending, ties
broken by the original (first-encountered) position.  This order is
antisymmetric on index-distinct pairs, so a sorted permutation of an
index-enumerated sample list under it is unique: it is exactly the order a
stable descending sort (Python's `sorted(..., reverse=True)`) emits. -/
def cpuIdxGe (a b : ℕ × ProcSample) : Prop :=
  b.2.cpu < a.2.cpu ∨ (a.2.cpu = b.2.cpu ∧ a.1 ≤ b.1)

instance : DecidableRel cpuIdxGe := fun a b =>
  inferInstanceAs (Decidable (b.2.cpu < a.2.cpu ∨ (a.2.cpu = b.2.cpu ∧ a.1 ≤ b.1)))

instance : IsTotal (ℕ × ProcSample) cpuIdxGe := by
  constructor
  intro a b
  rcases lt_trichotomy a.2.cpu b.2.cpu with hlt | heq | hgt
  · exact Or.inr (Or.inl hlt)
  · rcases le_total a.1 b.1 with hij | hji
    · exact Or.inl (Or.inr ⟨heq, hij⟩)
    · exact Or.inr (Or.inr ⟨heq.symm, hji⟩)
  · exact Or.inl (Or.inl hgt)

instance : IsTrans (ℕ × ProcSample) cpuIdxGe := by
  constructor
  rintro a b c (hab | ⟨hab, hij⟩) (hbc | ⟨hbc, hjk⟩)
  · exact Or.inl (lt_trans hbc hab)
  · exact Or.inl (hbc ▸ hab)
  · exact Or.inl (hab ▸ hbc)
  · exact Or.inr ⟨hab.trans hbc, le_trans hij hjk⟩

/-- The response lines of `get_top_cpu_processes`:
`f"{i+1}. {proc['name']} - {proc['cpu_percent']/100:.2f}%\n"` for each entry. -/
def renderLines (l : List ProcSample) : String :=
  String.join (l.enum.map (fun ip =>
    Nat.repr (ip.1 + 1) ++ ". " ++ ip.2.name ++ " - " ++ fmt2 (ip.2.cpu / 100) ++ "%\n"))

/-- `ChatApp.get_top_cpu_processes` on the collected `process_data`.
The aggregated-by-name table is computed but never used for the output (the
dedented `if p_info['status'] == 'OK':` block and `sorted_items` are dead in
the returned value); the response ranks the raw per-process list, dividing
each CPU percentage by 100.  When `process_data` is empty the dedented block
reads the loop variable `p_info` before assignment, raising `NameError`, which
the blanket `except Exception` turns into the error string returned here. -/
def get_top_cpu_processes (process_data : List ProcSample) : String :=
  match process_data with
  | [] => "Error al obtener la lista de procesos: name 'p_info' is not defined"
  | _ :: _ =>
    let sorted_processes := List.insertionSort cpuGe process_data
    "Top 10 procesos con mayor consumo de CPU:\n" ++ renderLines (sorted_processes.take 10)

/-- A parsed `datetime` value (year, month, day, hour, minute, second). -/
structure DT where
  y : ℕ
  mo : ℕ
  d : ℕ
  h : ℕ
  mi : ℕ
  s : ℕ
deriving DecidableEq, Repr

/-- strptime `%Y`: exactly four digits. -/
def year4 : List Char → Option (ℕ × List Char)
  | a :: b :: c :: d :: r =>
    if a.isDigit ∧ b.isDigit ∧ c.isDigit ∧ d.isDigit then
      some (1000 * (a.toNat - 48) + 100 * (b.toNat - 48) + 10 * (c.toNat - 48) + (d.toNat - 48), r)
    else none
  | _ => none

/-- strptime numeric field: one or two digits, preferring two. -/
def take2d : List Char → Option (ℕ × List Char)
  | a :: b :: r =>
    if a.isDigit then
      if b.isDigit then some (10 * (a.toNat - 48) + (b.toNat - 48), r)
      else some (a.toNat - 48, b :: r)
    else none
  | [a] => if a.isDigit then some (a.toNat - 48, []) else none
  | [] => none

/-- Consume one literal character. -/
def lit (c : Char) : List Char → Option (List Char)
  | a :: r => if a = c then some r else none
  | [] => none

/-- Gregorian leap-year test. -/
def isLeap (y : ℕ) : Bool :=
  (y % 4 = 0 ∧ y % 100 ≠ 0) ∨ y % 400 = 0

/-- Days in a month (for `datetime`'s validity check). -/
def daysInMonth (y m : ℕ) : ℕ :=
  if m = 2 then (if isLeap y then 29 else 28)
  else if m ∈ [4, 6, 9, 11] then 30 else 31

/-- `datetime.datetime.strptime(s, "%Y-%m-%dT%H:%M:%S")`: the fixed pattern must
consume the whole string and the fields must form a valid datetime. -/
def parseTs (str : String) : Option DT := do
  let (y, r1) ← year4 str.data
  let r2 ← lit '-' r1
  let (mo, r3) ← take2d r2
  let r4 ← lit '-' r3
  let (d, r5) ← take2d r4
  let r6 ← lit 'T' r5
  let (h, r7) ← take2d r6
  let r8 ← lit ':' r7
  let (mi, r9) ← take2d r8
  let r10 ← lit ':' r9
  let (s, r11) ← take2d r10
  if r11 = [] ∧ 1 ≤ y ∧ 1 ≤ mo ∧ mo ≤ 12 ∧ 1 ≤ d ∧ d ≤ daysInMonth y mo ∧
      h ≤ 23 ∧ mi ≤ 59 ∧ s ≤ 59 then
    some ⟨y, mo, d, h, mi, s⟩
  else none

/-- `dt_object.strftime("%H:%M:%S %d/%m/%Y")`. -/
def renderDt (dt : DT) : String :=
  pad2 dt.h ++ ":" ++ pad2 dt.mi ++ ":" ++ pad2 dt.s ++ " " ++
    pad2 dt.d ++ "/" ++ pad2 dt.mo ++ "/" ++ pad4 dt.y

/-- Python `raw_timestamp.split('.')[0]`: the prefix before the first dot. -/
def preDot (s : String) : String :=
  ⟨s.data.takeWhile (fun c => c ≠ '.')⟩

/-- Python `str(x)` as used in the response f-string.  After formatting, metric
values are strings (or NULL, rendered `"None"`); the numeric renderings below
approximate `repr` and are unreachable on the formatted fields. -/
def strOf : Scalar → String
  | .null => "None"
  | .int i => Int.repr i
  | .real q => if q.den = 1 then Int.repr q.num ++ ".0" else Int.repr q.num ++ "/" ++ Nat.repr q.den
  | .text s => s

/-- Lines 452-461 of `handle_input`: build the metric response.  `KeyError` on a
missing timestamp and `ValueError` from `strptime` are caught (dropping the
update suffix); calling `.split` on a non-string timestamp raises an uncaught
`AttributeError`. -/
def composeResponse (key : String) (v : Scalar) (m : List (String × Scalar)) :
    Except PyExc String :=
  let fname := formatted_metric_names key
  let plain := "El valor de '" ++ fname ++ "' es: " ++ strOf v
  match lookupA "timestamp" m with
  | none => .ok plain
  | some (.text ts) =>
    match parseTs (preDot ts) with
    | some dt => .ok (plain ++ " (Última actualización: " ++ renderDt dt ++ ")")
    | none => .ok plain
  | some _ => .error .attributeError

/-- Outcome of the command-resolution prefix of `handle_input` (lines 420-441). -/
inductive Resolution where
  | options
  | outOfRange
  | key (k : String)
deriving DecidableEq, Repr

/-- Lines 420-441 of `handle_input` on the stripped, lowered input text:
the `"opciones"` control word, then `int(...)` ordinal lookup (out-of-range
rejected), else space→underscore normalization into a candidate key. -/
def resolveInput (t : String) : Resolution :=
  if t = "opciones" then .options
  else
    match pyParseIntStr t with
    | some n =>
      if 1 ≤ n ∧ n ≤ (metric_names.length : ℤ) then
        .key (metric_names.getD (n - 1).toNat "")
      else .outOfRange
    | none => .key (pyReplaceChar ' ' ['_'] t)

/-- The canonical metric key an input resolves to: the candidate key when it
names the live-process pseudo-metric or appears in the catalog, else `none`
(mirrors the `top_10_cpu` / `in metric_names` / invalid branching). -/
def resolveMetricKey (t : String) : Option String :=
  match resolveInput t with
  | .key k => if k = "top_10_cpu" ∨ k ∈ metric_names then some k else none
  | _ => none

/-- A chat-history entry (user echo bubble or bot bubble). -/
inductive Msg where
  | user (s : String)
  | bot (s : String)
deriving DecidableEq, Repr

/-- The numbered catalog listing built in `__init__`/`handle_input`. -/
def listingLines : String :=
  String.join (metric_names.enum.map (fun p =>
    Nat.repr (p.1 + 1) ++ ". " ++ formatted_metric_names p.2 ++ "\n"))

/-- The `"opciones"` response text. -/
def metricsListStr : String :=
  "Bot: Métricas disponibles:\n" ++ listingLines

/-- The out-of-range ordinal response text. -/
def outOfRangeMsg : String :=
  "Número de métrica fuera de rango. Por favor, elige un número del 1 al " ++
    Nat.repr metric_names.length ++ " o escribe 'opciones'."

/-- The unrecognized-metric response text. -/
def invalidMsg : String :=
  "Métrica no válida. Por favor, escribe el número o nombre exacto de la métrica.\n\nBot: Métricas disponibles:\n" ++ listingLines

/-- The mutable application state touched by `handle_input`: the chat history,
the input box text, the connection flag (`self.conn is not None`) and the
database behind the connection. -/
structure AppState where
  chat : List Msg
  inputText : String
  conn : Bool
  db : Db
deriving DecidableEq, Repr

/-- Result of one `handle_input` call: the state afterwards, how many storage
reads (`SELECT` statements) were executed, and the uncaught exception if one
escaped (leaving the state as it was at the raise point). -/
structure HIResult where
  st : AppState
  reads : ℕ
  exc : Option PyExc
deriving DecidableEq, Repr

/-- `ChatApp.handle_input`, driven by the input-box text; `procs` is the live
process table `get_top_cpu_processes` would sample. -/
def handle_input (st : AppState) (procs : List ProcSample) : HIResult :=
  let t := pyLower (pyStrip st.inputText)
  if t = "" then ⟨st, 0, none⟩
  else
    let st1 : AppState := { st with chat := st.chat ++ [.user t] }
    match resolveInput t with
    | .options =>
      ⟨{ st1 with chat := st1.chat ++ [.bot metricsListStr], inputText := "" }, 0, none⟩
    | .outOfRange =>
      ⟨{ st1 with chat := st1.chat ++ [.bot outOfRangeMsg], inputText := "" }, 0, none⟩
    | .key k =>
      if k = "top_10_cpu" then
        ⟨{ st1 with chat := st1.chat ++ [.bot (get_top_cpu_processes procs)], inputText := "" },
          0, none⟩
      else if k ∈ metric_names then
        let reads := if st.conn then 1 else 0
        match get_metrics_data st.conn st.db with
        | .error e => ⟨st1, reads, some e⟩
        | .ok m =>
          match lookupA k m with
          | some v =>
            match composeResponse k v m with
            | .ok resp =>
              ⟨{ st1 with chat := st1.chat ++ [.bot resp], inputText := "" }, reads, none⟩
            | .error e => ⟨st1, reads, some e⟩
          | none =>
            match lookupA "error" m with
            | some ev =>
              ⟨{ st1 with chat := st1.chat ++ [.bot (strOf ev)], inputText := "" }, reads, none⟩
            | none =>
              let noData : Msg := .bot "No se encontraron datos para esa métrica en la base de datos."
              ⟨{ st1 with chat := st1.chat ++ [noData], inputText := "" }, reads, none⟩
      else
        ⟨{ st1 with chat := st1.chat ++ [.bot invalidMsg], inputText := "" }, 0, none⟩

/-- Decidable equality for `Except` results (needed to evaluate the embedded
functions inside `decide`). -/
instance {e a : Type} [DecidableEq e] [DecidableEq a] : DecidableEq (Except e a) := fun x y =>
  match x, y with
  | .ok u, .ok v => if h : u = v then isTrue (by simp [h]) else isFalse (by simp [h])
  | .error u, .error v => if h : u = v then isTrue (by simp [h]) else isFalse (by simp [h])
  | .ok _, .error _ => isFalse (by simp)
  | .error _, .ok _ => isFalse (by simp)

/-- A stored latest row whose `cpu_percent` was written as the non-numeric text
`"abc"` (SQLite's dynamic typing permits TEXT in a REAL column). -/
def db_abc : Db :=
  ⟨true, [Scalar.text "2024-01-01T00:00:00" :: Scalar.text "abc" :: List.replicate 24 Scalar.null]⟩

/-- A stored latest row whose `cpu_percent` is the already-formatted sentinel
text `"N/A"`. -/
def db_na : Db :=
  ⟨true, [Scalar.text "2024-01-01T00:00:00" :: Scalar.text "N/A" :: List.replicate 24 Scalar.null]⟩

/-- Modelled from the spec's words for comparison (claim C9): stripping only the
single trailing `'%'` character, as the claim describes. -/
def stripTrailingPercentSpec (s : String) : String :=
  if endsPercent s = true then ⟨s.data.dropLast⟩ else s

/-- The storage-failure scenario of claim C6 for one input text `t`: with the
connection down the response is exactly the connection-failure message, and
with a reachable but empty table it is exactly the no-data message. -/
def storageFailureResponses (t : String) : Prop :=
  (handle_input ⟨[], t, false, ⟨true, []⟩⟩ []).st.chat =
    [Msg.user t, Msg.bot "No se pudo conectar a la base de datos."] ∧
  (handle_input ⟨[], t, false, ⟨true, []⟩⟩ []).exc = none ∧
  (handle_input ⟨[], t, true, ⟨true, []⟩⟩ []).st.chat =
    [Msg.user t, Msg.bot "No hay datos en la tabla de métricas."] ∧
  (handle_input ⟨[], t, true, ⟨true, []⟩⟩ []).exc = none

instance (t : String) : Decidable (storageFailureResponses t) := by
  unfold storageFailureResponses
  infer_instance

/-- The claim C4 normalization of a display label: what `handle_input` applies
to user text before name lookup (strip, lowercase, spaces to underscores). -/
def normalizeInput (s : String) : String :=
  pyReplaceChar ' ' ['_'] (pyLower (pyStrip s))

/-- Database whose single row carries timestamp text `ts` and `cpu_percent` 42
(the claim C8 scenario family). -/
def dbC8 (ts : String) : Db :=
  ⟨true, [Scalar.text ts :: Scalar.real 42 :: List.replicate 24 Scalar.null]⟩

/-- Application state querying `cpu_percent` against `dbC8 ts`. -/
def stC8 (ts : String) : AppState :=
  ⟨[], "cpu_percent", true, dbC8 ts⟩

/-- Substring test over character lists (for stating that a raw timestamp does
not occur anywhere in a response). -/
def hasSub (needle hay : List Char) : Bool :=
  (List.range (hay.length + 1)).any (fun i => needle.isPrefixOf (hay.drop i))

/-- The metrics mapping produced for a `dbC8 ts` row: timestamp text preserved,
`cpu_percent` formatted, all other columns NULL. -/
def mC8 (ts : String) : List (String × Scalar) :=
  ("timestamp", Scalar.text ts) :: ("cpu_percent", Scalar.text "42.00%") ::
    (columns.drop 2).map (fun c => (c, Scalar.null))

/-- A stored latest row whose `cpu_percent` was written as the text `"42.5%"`. -/
def db425 : Db :=
  ⟨true, [Scalar.text "2024-01-01T00:00:00" :: Scalar.text "42.5%" :: List.replicate 24 Scalar.null]⟩

/-- Every index in `enumFrom n l` is at least `n`. -/
theorem mem_enumFrom_le (n : ℕ) (l : List ProcSample) :
    ∀ p ∈ l.enumFrom n, n ≤ p.1 := by
  induction l generalizing n with
  | nil => simp
  | cons a t ih =>
    intro p hp
    rw [List.enumFrom] at hp
    rcases List.mem_cons.mp hp with rfl | hp'
    · exact le_refl n
    · exact le_trans (Nat.le_succ n) (ih (n + 1) p hp')

/-- The indices of `enumFrom n l` are strictly increasing. -/
theorem pairwise_enumFrom (n : ℕ) (l : List ProcSample) :
    List.Pairwise (fun x y => x.1 < y.1) (l.enumFrom n) := by
  induction l generalizing n with
  | nil => simp
  | cons a t ih =>
    rw [List.enumFrom]
    exact List.Pairwise.cons
      (fun y hy => Nat.lt_of_succ_le (mem_enumFrom_le (n + 1) t y hy)) (ih (n + 1))

/-- Inserting a sample whose index is below every index of the list commutes
with dropping the indices: the index-refined order and the plain CPU order
agree on all comparisons made. -/
theorem orderedInsert_snd (i : ℕ) (a : ProcSample) (L : List (ℕ × ProcSample))
    (hL : ∀ p ∈ L, i < p.1) :
    (List.orderedInsert cpuIdxGe (i, a) L).map Prod.snd =
      List.orderedInsert cpuGe a (L.map Prod.snd) := by
  induction L with
  | nil => rfl
  | cons jb L' ih =>
    obtain ⟨j, b⟩ := jb
    have hij : i < j := hL (j, b) (List.mem_cons_self _ _)
    have hiff : cpuIdxGe (i, a) (j, b) ↔ cpuGe a b := by
      unfold cpuIdxGe cpuGe
      constructor
      · rintro (hlt | ⟨heq, _⟩)
        · exact le_of_lt hlt
        · exact le_of_eq heq.symm
      · intro hle
        rcases lt_or_eq_of_le hle with hlt | heq
        · exact Or.inl hlt
        · exact Or.inr ⟨heq.symm, le_of_lt hij⟩
    rw [List.map_cons, List.orderedInsert, List.orderedInsert]
    by_cases hc : cpuGe a b
    · rw [if_pos (hiff.mpr hc), if_pos hc]
      rfl
    · rw [if_neg (fun hx => hc (hiff.mp hx)), if_neg hc, List.map_cons,
        ih (fun p hp => hL p (List.mem_cons_of_mem _ hp))]

/-- Stability of the modelled sort: sorting index-enumerated samples by the
index-refined order and dropping the indices gives the plain descending sort,
provided the indices are strictly increasing. -/
theorem insertionSort_snd (el : List (ℕ × ProcSample))
    (h : List.Pairwise (fun x y => x.1 < y.1) el) :
    (List.insertionSort cpuIdxGe el).map Prod.snd =
      List.insertionSort cpuGe (el.map Prod.snd) := by
  induction el with
  | nil => rfl
  | cons ia el' ih =>
    obtain ⟨i, a⟩ := ia
    obtain ⟨hhead, htail⟩ := List.pairwise_cons.mp h
    rw [List.map_cons, List.insertionSort, List.insertionSort, ← ih htail]
    exact orderedInsert_snd i a _
      (fun p hp => hhead p ((List.mem_insertionSort cpuIdxGe).mp hp))

/-- The sort used by `get_top_cpu_processes` equals the unique
`cpuIdxGe`-sorted permutation of the enumerated samples with indices dropped. -/
theorem stable_sort_snd (procs : List ProcSample) :
    (List.insertionSort cpuIdxGe procs.enum).map Prod.snd =
      List.insertionSort cpuGe procs := by
  rw [insertionSort_snd procs.enum (pairwise_enumFrom 0 procs), List.enum_map_snd]

/-- Reading the latest row of `dbC8 ts` succeeds with the `mC8 ts` mapping as
long as the timestamp text does not end in `'%'`. -/
theorem gmd_c8 (ts : String) (h : endsPercent ts = false) :
    get_metrics_data true (dbC8 ts) = .ok (mC8 ts) := by
  have hsp : stripPercent (Scalar.text ts) = Scalar.text ts := by
    simp [stripPercent, h]
  have e0 : get_metrics_data true (dbC8 ts) =
      List.foldlM fmtField
        (("timestamp", coerceStep "timestamp" (stripPercent (Scalar.text ts))) ::
          ("cpu_percent", Scalar.real 42) ::
          (columns.drop 2).map (fun c => (c, Scalar.null))) fmtSpecs := rfl
  rw [e0, hsp]
  rfl

/-- Zipping a name list against a NULL row of length `k` keeps the first `k` names. -/
theorem zip_replicate_null (l : List String) (k : ℕ) :
    l.zip (List.replicate k Scalar.null) = (l.take k).map (fun c => (c, Scalar.null)) := by
  induction l generalizing k with
  | nil => simp
  | cons a r ih =>
    cases k with
    | zero => simp
    | succ j => simp [List.replicate_succ, ih]

/-- The percent-strip/coercion loop body is the identity on NULL values. -/
theorem coerce_null (c : String) : coerceStep c (stripPercent Scalar.null) = Scalar.null := by
  unfold stripPercent coerceStep
  split <;> rfl

/-- A successful `lookupA` returns a pair of the list. -/
theorem lookupA_mem {m : List (String × Scalar)} {k : String} {v : Scalar}
    (h : lookupA k m = some v) : (k, v) ∈ m := by
  induction m with
  | nil => simp [lookupA] at h
  | cons p r ih =>
    obtain ⟨k', w⟩ := p
    by_cases hk : k' = k
    · subst hk
      simp [lookupA] at h
      subst h
      exact List.mem_cons_self _ _
    · rw [lookupA, if_neg hk] at h
      exact List.mem_cons_of_mem _ (ih h)

/-- `lookupA` misses keys that are not among the mapping's keys. -/
theorem lookupA_none {m : List (String × Scalar)} {k : String}
    (h : k ∉ m.map Prod.fst) : lookupA k m = none := by
  induction m with
  | nil => rfl
  | cons p r ih =>
    obtain ⟨k', w⟩ := p
    simp only [List.map_cons, List.mem_cons, not_or] at h
    rw [lookupA, if_neg (Ne.symm h.1)]
    exact ih h.2

/-- The formatting fold is the identity on a mapping whose values are all NULL. -/
theorem fold_null (specs : List (String × String × Bool)) (m : List (String × Scalar))
    (h : ∀ p ∈ m, p.2 = Scalar.null) : List.foldlM fmtField m specs = .ok m := by
  induction specs with
  | nil => rfl
  | cons s r ih =>
    have hs : fmtField m s = .ok m := by
      unfold fmtField
      cases hl : lookupA s.1 m with
      | none => rfl
      | some v =>
        have hv : v = Scalar.null := h _ (lookupA_mem hl)
        subst hv
        rfl
    simp only [List.foldlM, hs]
    exact ih

/-- Claim C1 (code bug evidence): when the latest row stores a value that is not
coercible to a number (such as the text `"abc"`, or the sentinel `"N/A"` fed
back through coercion), the formatting layer does not produce the `"N/A"`
string the specification describes: the `f"{...:.2f}"` assignment raises
`ValueError` (only `sqlite3.Error` is caught), `get_metrics_data` propagates
the exception, and `handle_input` crashes with no response produced. -/
theorem c1_nonnumeric_value_crashes_formatting :
    get_metrics_data true db_abc = .error PyExc.valueError ∧
    get_metrics_data true db_na = .error PyExc.valueError ∧
    handle_input ⟨[], "cpu_percent", true, db_abc⟩ [] =
      ⟨⟨[Msg.user "cpu_percent"], "cpu_percent", true, db_abc⟩, 1, some PyExc.valueError⟩ := by
  decide

/-- Claim C2 (counterexample): the program is not read-only with respect to the
storage backend.  Starting up against a missing/empty database creates the
`metricas` table and inserts one sample row, so the storage state after startup
differs from the state before. -/
theorem c2_counterexample_startup_writes :
    startup_db ⟨false, []⟩ sample_row ≠ ⟨false, []⟩ ∧
    (startup_db ⟨false, []⟩ sample_row).tableExists = true ∧
    (startup_db ⟨false, []⟩ sample_row).rows.length = 1 := by
  decide

/-- Claim C2 (amended): after initialization, query handling is read-only:
every `handle_input` call leaves the database state and the connection flag
unchanged, for every input and every process table. -/
theorem c2_amended_queries_read_only (st : AppState) (procs : List ProcSample) :
    (handle_input st procs).st.db = st.db ∧ (handle_input st procs).st.conn = st.conn := by
  unfold handle_input
  dsimp only
  repeat' split <;> try exact ⟨rfl, rfl⟩

/-- Claim C3 (counterexample): the top-CPU report does not emit aggregated
entries in the format `"{rank}. {name} - {summed_cpu:.2f}% (Instances: {count})"`.
A single process named `a` at 50% CPU is reported as `"1. a - 0.50%"`: the CPU
percentage is divided by 100 and no instance count appears. -/
theorem c3_counterexample_per_process_format :
    get_top_cpu_processes [⟨"a", 50⟩] =
      "Top 10 procesos con mayor consumo de CPU:\n1. a - 0.50%\n" ∧
    get_top_cpu_processes [⟨"a", 50⟩] ≠
      "Top 10 procesos con mayor consumo de CPU:\n1. a - 50.00% (Instances: 1)\n" := by
  decide

/-- Claim C3 (amended): the report ranks the raw per-process samples, not the
name-aggregated table (which the source computes but discards): for every
nonempty sample set the output is the header plus, for each of the top 10
entries of the samples stably sorted by CPU descending — ties broken by
first-encountered order, expressed by sorting the index-enumerated samples
under `cpuIdxGe`, which determines the emitted order uniquely — the line
`"{rank}. {name} - {cpu/100:.2f}%"` produced by `renderLines`. -/
theorem c3_amended_per_process_ranking (procs : List ProcSample) (h : procs ≠ []) :
    ∃ el : List (ℕ × ProcSample),
      el.Perm procs.enum ∧ el.Sorted cpuIdxGe ∧
      (el.map Prod.snd).Perm procs ∧ (el.map Prod.snd).Sorted cpuGe ∧
      get_top_cpu_processes procs =
        "Top 10 procesos con mayor consumo de CPU:\n" ++
          renderLines ((el.map Prod.snd).take 10) := by
  refine ⟨List.insertionSort cpuIdxGe procs.enum, List.perm_insertionSort _ _,
    List.sorted_insertionSort _ _, ?_, ?_, ?_⟩
  · rw [stable_sort_snd]
    exact List.perm_insertionSort _ _
  · rw [stable_sort_snd]
    exact List.sorted_insertionSort _ _
  · rw [stable_sort_snd]
    match procs, h with
    | p :: ps, _ => rfl

/-- Claim C3 witness: the amended statement at a two-sample set tied at 0% CPU,
where stability decides the emitted order (`b` before `a`). -/
theorem c3_amended_per_process_ranking_witness :
    ([⟨"b", 0⟩, ⟨"a", 0⟩] : List ProcSample) ≠ [] ∧
    (∃ el : List (ℕ × ProcSample),
      el.Perm ([⟨"b", 0⟩, ⟨"a", 0⟩] : List ProcSample).enum ∧ el.Sorted cpuIdxGe ∧
      (el.map Prod.snd).Perm [⟨"b", 0⟩, ⟨"a", 0⟩] ∧ (el.map Prod.snd).Sorted cpuGe ∧
      get_top_cpu_processes [⟨"b", 0⟩, ⟨"a", 0⟩] =
        "Top 10 procesos con mayor consumo de CPU:\n" ++
          renderLines ((el.map Prod.snd).take 10)) :=
  ⟨by decide, c3_amended_per_process_ranking [⟨"b", 0⟩, ⟨"a", 0⟩] (by decide)⟩

/-- Claim C4 (counterexample): ordinal 26 breaks ordinal/label agreement.  The
input `"26"` resolves to the key `top_10_cpu`, but the catalog label for
ordinal 26 is the overridden `"Top 10 Apps High CPU"`, which normalizes to
`top_10_apps_high_cpu` and resolves to nothing. -/
theorem c4_counterexample_ordinal_26 :
    resolveMetricKey (Nat.repr 26) = some "top_10_cpu" ∧
    formatted_metric_names (metric_names.getD 25 "") = "Top 10 Apps High CPU" ∧
    resolveMetricKey (normalizeInput (formatted_metric_names (metric_names.getD 25 ""))) =
      none := by
  decide

/-- Claim C4 (amended): for every ordinal 1..25 (all catalog entries except the
overridden live-process entry), resolving the decimal string of the ordinal
yields the same canonical key as resolving the normalized display label, and
that key exists. -/
theorem c4_amended_ordinal_label_agreement :
    ∀ n ∈ Finset.Icc 1 25,
      resolveMetricKey (Nat.repr n) =
        resolveMetricKey (normalizeInput (formatted_metric_names (metric_names.getD (n - 1) ""))) ∧
      (resolveMetricKey (Nat.repr n)).isSome = true := by
  decide

/-- Claim C4 witness: the amended statement at ordinal 3. -/
theorem c4_amended_ordinal_label_agreement_witness :
    3 ∈ Finset.Icc 1 25 ∧
    (resolveMetricKey (Nat.repr 3) =
      resolveMetricKey (normalizeInput (formatted_metric_names (metric_names.getD 2 ""))) ∧
      (resolveMetricKey (Nat.repr 3)).isSome = true) :=
  ⟨by decide, c4_amended_ordinal_label_agreement 3 (by decide)⟩

/-- Claim C5 (counterexample): a fetched row with only 2 of the 26 expected
columns does not produce a `SchemaMismatch` error: `dict(zip(columns, row))`
silently truncates, and the read succeeds with a partially-populated mapping
holding only `timestamp` and `cpu_percent` and no `error` key. -/
theorem c5_counterexample_short_row_partial_mapping :
    get_metrics_data true ⟨true, [[Scalar.text "2024-01-01T00:00:00", Scalar.real 1]]⟩ =
      .ok [("timestamp", Scalar.text "2024-01-01T00:00:00"),
        ("cpu_percent", Scalar.text "1.00%")] ∧
    lookupA "error" [("timestamp", Scalar.text "2024-01-01T00:00:00"),
      ("cpu_percent", Scalar.text "1.00%")] = none := by
  decide

/-- Claim C5 (amended): for every row with `k < 26` columns (here a NULL row of
length `k`, `1 ≤ k`), the latest-row read succeeds and returns the mapping of
exactly the first `k` column names, with no error reported. -/
theorem c5_amended_short_row_truncated_mapping (k : ℕ) (h1 : 1 ≤ k) (h2 : k < 26) :
    get_metrics_data true ⟨true, [List.replicate k Scalar.null]⟩ =
      .ok ((columns.take k).map (fun c => (c, Scalar.null))) ∧
    ((columns.take k).map (fun c => (c, Scalar.null))).map Prod.fst = columns.take k ∧
    lookupA "error" ((columns.take k).map (fun c => (c, Scalar.null))) = none := by
  obtain ⟨j, rfl⟩ : ∃ j, k = j + 1 := ⟨k - 1, by omega⟩
  have hkeys : (((columns.take (j + 1)).map (fun c => (c, Scalar.null))).map Prod.fst)
      = columns.take (j + 1) := by
    rw [List.map_map, show (Prod.fst ∘ fun c : String => (c, Scalar.null)) = id from rfl,
      List.map_id]
  refine ⟨?_, hkeys, ?_⟩
  · have e0 : get_metrics_data true ⟨true, [List.replicate (j + 1) Scalar.null]⟩ =
        List.foldlM fmtField
          ((columns.zip (List.replicate (j + 1) Scalar.null)).map
            (fun p => (p.1, coerceStep p.1 (stripPercent p.2)))) fmtSpecs := rfl
    rw [e0, zip_replicate_null, List.map_map]
    have hfun : ((fun p : String × Scalar => (p.1, coerceStep p.1 (stripPercent p.2))) ∘
        (fun c : String => (c, Scalar.null))) = (fun c : String => (c, Scalar.null)) := by
      funext c
      simp [coerce_null]
    rw [hfun]
    exact fold_null _ _ (fun p hp => by obtain ⟨c, _, rfl⟩ := List.mem_map.mp hp; rfl)
  · refine lookupA_none ?_
    rw [hkeys]
    intro hmem
    have hc : "error" ∈ columns := List.mem_of_mem_take hmem
    exact absurd hc (by decide)

/-- Claim C5 witness: the amended statement at a 2-column row. -/
theorem c5_amended_short_row_truncated_mapping_witness :
    (1 ≤ 2 ∧ 2 < 26) ∧
    (get_metrics_data true ⟨true, [List.replicate 2 Scalar.null]⟩ =
      .ok ((columns.take 2).map (fun c => (c, Scalar.null))) ∧
    ((columns.take 2).map (fun c => (c, Scalar.null))).map Prod.fst = columns.take 2 ∧
    lookupA "error" ((columns.take 2).map (fun c => (c, Scalar.null))) = none) :=
  ⟨by decide, c5_amended_short_row_truncated_mapping 2 (by decide) (by decide)⟩

/-- Claim C6: a stored-metric lookup (by any catalog key other than the
live-process pseudo-metric, or by any of the ordinals 1..25) issued while the
storage backend is unavailable answers with exactly the connection-failure
message, while a reachable but empty table answers with exactly the no-data
message; no metric value appears, no exception escapes, and the two failure
messages are distinct. -/
theorem c6_storage_failure_messages :
    (∀ key ∈ metric_names, key ≠ "top_10_cpu" → storageFailureResponses key) ∧
    (∀ n ∈ Finset.Icc 1 25, storageFailureResponses (Nat.repr n)) ∧
    "No se pudo conectar a la base de datos." ≠ "No hay datos en la tabla de métricas." := by
  decide

/-- Claim C6 witness: the `cpu_percent` lookup under both failure modes. -/
theorem c6_storage_failure_messages_witness :
    ("cpu_percent" ∈ metric_names ∧ "cpu_percent" ≠ "top_10_cpu") ∧
    storageFailureResponses "cpu_percent" :=
  ⟨⟨by decide, by decide⟩, c6_storage_failure_messages.1 "cpu_percent" (by decide) (by decide)⟩

/-- Claim C8 (counterexample): when the stored timestamp fails to parse, the raw
timestamp value does not pass through into the response: the `except` branch
drops the update suffix entirely, so the response is only the value line and
the raw text `"garbage"` occurs nowhere in it. -/
theorem c8_counterexample_parse_failure_drops_raw :
    handle_input (stC8 "garbage") [] =
      ⟨⟨[Msg.user "cpu_percent", Msg.bot "El valor de 'Cpu Percent' es: 42.00%"],
        "", true, dbC8 "garbage"⟩, 1, none⟩ ∧
    hasSub "garbage".data "El valor de 'Cpu Percent' es: 42.00%".data = false := by
  decide

/-- Claim C8 (amended): for every stored timestamp text (not ending in `'%'`,
which the percent-strip loop would mutate first), a successful `cpu_percent`
lookup parses the part before the first dot against `%Y-%m-%dT%H:%M:%S`; on
success the response carries the `HH:MM:SS DD/MM/YYYY` rendering in the update
suffix, and on parse failure the response is produced without any suffix (the
raw timestamp is omitted) rather than the whole response failing. -/
theorem c8_amended_timestamp_rendering (ts : String) (h : endsPercent ts = false) :
    (handle_input (stC8 ts) []).exc = none ∧
    (handle_input (stC8 ts) []).reads = 1 ∧
    (handle_input (stC8 ts) []).st.chat =
      [Msg.user "cpu_percent",
       Msg.bot (match parseTs (preDot ts) with
         | some dt =>
           "El valor de 'Cpu Percent' es: 42.00% (Última actualización: " ++ renderDt dt ++ ")"
         | none => "El valor de 'Cpu Percent' es: 42.00%")] := by
  have e1 : handle_input (stC8 ts) [] =
      match get_metrics_data true (dbC8 ts) with
      | .error e => ⟨⟨[Msg.user "cpu_percent"], "cpu_percent", true, dbC8 ts⟩, 1, some e⟩
      | .ok m =>
        match lookupA "cpu_percent" m with
        | some v =>
          match composeResponse "cpu_percent" v m with
          | .ok resp =>
            ⟨⟨[Msg.user "cpu_percent", Msg.bot resp], "", true, dbC8 ts⟩, 1, none⟩
          | .error e => ⟨⟨[Msg.user "cpu_percent"], "cpu_percent", true, dbC8 ts⟩, 1, some e⟩
        | none =>
          match lookupA "error" m with
          | some ev =>
            ⟨⟨[Msg.user "cpu_percent", Msg.bot (strOf ev)], "", true, dbC8 ts⟩, 1, none⟩
          | none =>
            ⟨⟨[Msg.user "cpu_percent",
               Msg.bot "No se encontraron datos para esa métrica en la base de datos."], "",
               true, dbC8 ts⟩, 1, none⟩ := rfl
  rw [e1, gmd_c8 ts h]
  dsimp only
  have e2 : lookupA "cpu_percent" (mC8 ts) = some (Scalar.text "42.00%") := rfl
  rw [e2]
  dsimp only
  have e3 : composeResponse "cpu_percent" (Scalar.text "42.00%") (mC8 ts) =
      .ok (match parseTs (preDot ts) with
        | some dt =>
          "El valor de 'Cpu Percent' es: 42.00% (Última actualización: " ++ renderDt dt ++ ")"
        | none => "El valor de 'Cpu Percent' es: 42.00%") := by
    unfold composeResponse
    rw [show lookupA "timestamp" (mC8 ts) = some (Scalar.text ts) from rfl]
    dsimp only
    cases hp : parseTs (preDot ts) <;> rfl
  rw [e3]
  exact ⟨rfl, rfl, rfl⟩

/-- Claim C8 witness: the amended statement at a fractional-seconds timestamp. -/
theorem c8_amended_timestamp_rendering_witness :
    endsPercent "2024-05-06T07:08:09.123456" = false ∧
    ((handle_input (stC8 "2024-05-06T07:08:09.123456") []).exc = none ∧
     (handle_input (stC8 "2024-05-06T07:08:09.123456") []).reads = 1 ∧
     (handle_input (stC8 "2024-05-06T07:08:09.123456") []).st.chat =
       [Msg.user "cpu_percent",
        Msg.bot (match parseTs (preDot "2024-05-06T07:08:09.123456") with
          | some dt =>
            "El valor de 'Cpu Percent' es: 42.00% (Última actualización: " ++ renderDt dt ++ ")"
          | none => "El valor de 'Cpu Percent' es: 42.00%")]) :=
  ⟨by decide, c8_amended_timestamp_rendering "2024-05-06T07:08:09.123456" (by decide)⟩

/-- Claim C9 (counterexample): it is not only the trailing `'%'` that is
stripped: `str.replace('%', '')` removes every `'%'`.  On the stored text
`"5%0%"` the code coerces to the number 50, whereas stripping only the
trailing `'%'` (the claim's wording, modelled by `stripTrailingPercentSpec`)
would leave `"5%0"`, which does not coerce at all. -/
theorem c9_counterexample_all_percents_removed :
    coerceStep "cpu_percent" (stripPercent (Scalar.text "5%0%")) = Scalar.real 50 ∧
    stripTrailingPercentSpec "5%0%" = "5%0" ∧
    pyParseFloat (stripTrailingPercentSpec "5%0%") = none := by
  decide

/-- Claim C9 (amended): for every stored string value ending in `'%'`, all `'%'`
characters are removed before numeric coercion is attempted, and the value
coerces exactly when the stripped text parses as a float; in particular
`"42.5%"` coerces to 42.5 and the full read formats it as `"42.50%"`. -/
theorem c9_amended_percent_removal_before_coercion (s : String) (h : endsPercent s = true) :
    stripPercent (Scalar.text s) = Scalar.text (pyReplaceChar '%' [] s) ∧
    coerceStep "cpu_percent" (stripPercent (Scalar.text s)) =
      (match pyParseFloat (pyReplaceChar '%' [] s) with
       | some q => Scalar.real q
       | none => Scalar.text (pyReplaceChar '%' [] s)) ∧
    (get_metrics_data true db425).map (lookupA "cpu_percent") =
      .ok (some (Scalar.text "42.50%")) := by
  have hsp : stripPercent (Scalar.text s) = Scalar.text (pyReplaceChar '%' [] s) := by
    simp [stripPercent, h]
  refine ⟨hsp, ?_, by decide⟩
  rw [hsp]
  unfold coerceStep
  rw [if_pos (show "cpu_percent" ∈ metric_names by decide)]
  dsimp only
  rw [if_neg (show "cpu_percent" ∉ byteKeys by decide)]
  rw [show pyFloatCoerce (Scalar.text (pyReplaceChar '%' [] s)) =
    pyParseFloat (pyReplaceChar '%' [] s) from rfl]

/-- Claim C9 witness: the amended statement at the stored text `"42.5%"`. -/
theorem c9_amended_percent_removal_before_coercion_witness :
    endsPercent "42.5%" = true ∧
    (stripPercent (Scalar.text "42.5%") = Scalar.text (pyReplaceChar '%' [] "42.5%") ∧
     coerceStep "cpu_percent" (stripPercent (Scalar.text "42.5%")) =
       (match pyParseFloat (pyReplaceChar '%' [] "42.5%") with
        | some q => Scalar.real q
        | none => Scalar.text (pyReplaceChar '%' [] "42.5%")) ∧
     (get_metrics_data true db425).map (lookupA "cpu_percent") =
       .ok (some (Scalar.text "42.50%"))) :=
  ⟨by decide, c9_amended_percent_removal_before_coercion "42.5%" (by decide)⟩

/-- Claim C10: an input that is empty or whitespace-only after trimming makes
`handle_input` return immediately: no message is appended, the input box is
not cleared, no storage read happens, and the whole state is unchanged. -/
theorem c10_blank_input_is_noop (st : AppState) (procs : List ProcSample)
    (h : pyStrip st.inputText = "") :
    handle_input st procs = ⟨st, 0, none⟩ := by
  unfold handle_input
  rw [h]
  rfl

/-- Claim C10 witness: the statement at a three-space input. -/
theorem c10_blank_input_is_noop_witness :
    pyStrip (AppState.mk [] "   " true ⟨true, []⟩).inputText = "" ∧
    handle_input ⟨[], "   ", true, ⟨true, []⟩⟩ [] = ⟨⟨[], "   ", true, ⟨true, []⟩⟩, 0, none⟩ :=
  ⟨by decide, c10_blank_input_is_noop ⟨[], "   ", true, ⟨true, []⟩⟩ [] (by decide)⟩
